import Mathlib

/-!
# Verification of the `licverifier` package

Shallow embedding of `src/licverifier/verifier.go` (MinIO Subnet license
verification).  Pure Go functions become Lean functions; the external
libraries (`encoding/pem`, `crypto/x509`, `lestrrat-go/jwx`) are modelled
symbolically: a key blob is represented by the outcome of the library
parsing stages, and a signed JWT by its header algorithm, payload and the
identity of the private key that produced the signature.  JSON numbers
(Go `float64`) are modelled as rationals; the Go conversion `int64(f)`
truncates toward zero, modelled by truncated integer division.
-/

/-- A JSON claim value as produced by `token.AsMap`: Go `interface{}`
holding a string, a number (`float64`), a boolean or null. -/
inductive JSONValue where
  | str (s : String)
  | num (q : ℚ)
  | boolean (b : Bool)
  | null
deriving DecidableEq

/-- Raw claims: untyped mapping from claim name to value
(`map[string]interface{}`), modelled as an association list. -/
abbrev RawClaims := List (String × JSONValue)

/-- Go map lookup `claims[k]`: first binding for `k`, if any. -/
def lookupClaim (claims : RawClaims) (k : String) : Option JSONValue :=
  (claims.find? (fun p => p.1 == k)).map (fun p => p.2)

/-- Go type assertion `claims[k].(float64)`: the value, when present and
numeric. -/
def claimAsNum (claims : RawClaims) (k : String) : Option ℚ :=
  match lookupClaim claims k with
  | some (JSONValue.num q) => some q
  | _ => none

/-- Go type assertion `claims[k].(string)`: the value, when present and a
string. -/
def claimAsStr (claims : RawClaims) (k : String) : Option String :=
  match lookupClaim claims k with
  | some (JSONValue.str s) => some s
  | _ => none

/-- Go conversion `int64(f)` on an in-range `float64`: truncation toward
zero, i.e. truncated division of numerator by denominator. -/
def f64ToInt64 (q : ℚ) : ℤ :=
  Int.tdiv q.num q.den

/-- `LicenseInfo` holds customer metadata present in the license key.
Timestamps are unix instants (`time.Time` modelled as ℤ, the Go zero
time as 0). -/
structure LicenseInfo where
  Email           : String
  Organization    : String
  AccountID       : ℤ
  DeploymentID    : String
  StorageCapacity : ℤ
  Plan            : String
  ExpiresAt       : ℤ
deriving DecidableEq

/-- The Go zero value `LicenseInfo{}`. -/
def LicenseInfo.zero : LicenseInfo :=
  { Email := "", Organization := "", AccountID := 0, DeploymentID := ""
  , StorageCapacity := 0, Plan := "", ExpiresAt := 0 }

-- license key JSON field names
def accountID : String := "aid"
def deploymentID : String := "did"
def organization : String := "org"
def capacity : String := "cap"
def plan : String := "plan"

/-- An ECDSA public key, identified symbolically: two keys are the same
iff the same key-pair generation produced them, and a signature made with
a private key verifies exactly under the public key of the same id. -/
structure ECPublicKey where
  id : Nat
deriving DecidableEq

/-- Outcome of the Go `interface{}` returned by the X.509 parsers: either
an `*ecdsa.PublicKey`, or a key of some other family (RSA, Ed25519, ...). -/
inductive ParsedKey where
  | ec (pk : ECPublicKey)
  | nonEC (desc : String)
deriving DecidableEq

/-- Symbolic model of the DER bytes inside a PEM block, by the outcome of
the two parsing stages the code runs in order:
`pkix k` — `x509.ParsePKIXPublicKey` succeeds and yields `k`;
`cert k` — PKIX parsing fails, `x509.ParseCertificate` succeeds and the
certificate's public key is `k`;
`garbage e` — both parsers fail, the certificate parser with error `e`. -/
inductive InnerDER where
  | pkix (k : ParsedKey)
  | cert (k : ParsedKey)
  | garbage (errMsg : String)
deriving DecidableEq

/-- Symbolic model of a key blob, by the outcome of `pem.Decode`:
either no PEM block can be located, or one decodes to the given DER. -/
inductive KeyBlob where
  | noPem
  | pemBlock (inner : InnerDER)
deriving DecidableEq

/-- parse PEM encoded PKCS1 or PKCS8 public key
(`parseECPublicKeyFromPEM` in `verifier.go`). -/
def parseECPublicKeyFromPEM (key : KeyBlob) : Except String ECPublicKey :=
  match key with
  | KeyBlob.noPem =>
      Except.error "key must be a PEM encoded PKCS1 or PKCS8 key"
  | KeyBlob.pemBlock inner =>
      match inner with
      | InnerDER.garbage e => Except.error e
      | InnerDER.pkix k =>
          match k with
          | ParsedKey.ec pk => Except.ok pk
          | ParsedKey.nonEC _ => Except.error "key is not a valid RSA public key"
      | InnerDER.cert k =>
          match k with
          | ParsedKey.ec pk => Except.ok pk
          | ParsedKey.nonEC _ => Except.error "key is not a valid RSA public key"

/-- A JWK entry: one public key with its (explicitly set) algorithm tag. -/
structure JWKey where
  key : ECPublicKey
  alg : String
deriving DecidableEq

/-- `LicenseVerifier` holds the JWK set built at construction. -/
structure LicenseVerifier where
  keySet : List JWKey
deriving DecidableEq

/-- `NewLicenseVerifier` returns an initialized license verifier with the
given ECDSA public key in PEM format: parse the key, set its algorithm
tag to ES384 unconditionally, and build a one-element key set. -/
def NewLicenseVerifier (pemBytes : KeyBlob) : Except String LicenseVerifier :=
  match parseECPublicKeyFromPEM pemBytes with
  | Except.error e => Except.error ("Failed to parse public key: " ++ e)
  | Except.ok pbKey =>
      Except.ok { keySet := [{ key := pbKey, alg := "ES384" }] }

/-- A verified token as seen by the claims extractor: its claim map
(`token.AsMap`), subject (`token.Subject()`) and expiration
(`token.Expiration()`, the Go zero time when the claim is absent). -/
structure JWTToken where
  claims  : RawClaims
  subject : String
  exp     : Option ℤ
deriving DecidableEq

/-- `token.Expiration()`: the exp claim, or the zero time. -/
def JWTToken.expiration (t : JWTToken) : ℤ :=
  t.exp.getD 0

/-- `toLicenseInfo` extracts LicenseInfo from claims.  It returns an error
if any of the claim values are invalid.  Modelled on the Go
`(LicenseInfo, error)` pair: the second component is the error, and every
error path returns the zero `LicenseInfo`. -/
def toLicenseInfo (token : JWTToken) : LicenseInfo × Option String :=
  let claims := token.claims
  match claimAsNum claims accountID with
  | none => (LicenseInfo.zero, some "Invalid accountId in claims")
  | some accID =>
    if accID < 0 then (LicenseInfo.zero, some "Invalid accountId in claims")
    else
      -- deployment id may not be present in older licenses.
      -- so don't fail if it's not found.
      let depUUID := (claimAsStr claims deploymentID).getD ""
      match claimAsStr claims organization with
      | none => (LicenseInfo.zero, some "Invalid organization in claims")
      | some orgName =>
        match claimAsNum claims capacity with
        | none => (LicenseInfo.zero, some "Invalid storage capacity in claims")
        | some storageCap =>
          match claimAsStr claims plan with
          | none => (LicenseInfo.zero, some "Invalid plan in claims")
          | some planName =>
            ({ Email := token.subject
             , Organization := orgName
             , AccountID := f64ToInt64 accID
             , DeploymentID := depUUID
             , StorageCapacity := f64ToInt64 storageCap
             , Plan := planName
             , ExpiresAt := token.expiration }, none)

/-- A compact signed token before verification: the algorithm declared in
its header, its payload, and the id of the private key whose signature it
carries (an altered signature is modelled by an id matching no key). -/
structure SignedToken where
  alg     : String
  claims  : RawClaims
  subject : String
  exp     : Option ℤ
  nbf     : Option ℤ
  sigKey  : Nat
deriving DecidableEq

/-- Modelled from the spec: the jwx library call
`jwt.ParseString(license, WithKeySet(keySet), UseDefaultKey(true),
WithValidate(true))` is external library code, modelled per spec section
4.3: the token's declared algorithm must match the key set's bound
algorithm and the signature must verify under a key of the set, else a
signature error; then, with validation on, reject when the current time
is at/after `exp`, or before `nbf` when present. -/
def jwtParseAndValidate (keySet : List JWKey) (now : ℤ) (tok : SignedToken) :
    Except String JWTToken :=
  if keySet.any (fun k => k.alg == tok.alg && k.key.id == tok.sigKey) then
    match tok.exp with
    | some e =>
        if e ≤ now then Except.error "exp not satisfied"
        else
          match tok.nbf with
          | some n =>
              if now < n then Except.error "nbf not satisfied"
              else Except.ok { claims := tok.claims, subject := tok.subject, exp := tok.exp }
          | none => Except.ok { claims := tok.claims, subject := tok.subject, exp := tok.exp }
    | none =>
        match tok.nbf with
        | some n =>
            if now < n then Except.error "nbf not satisfied"
            else Except.ok { claims := tok.claims, subject := tok.subject, exp := tok.exp }
        | none => Except.ok { claims := tok.claims, subject := tok.subject, exp := tok.exp }
  else
    Except.error "could not verify message using any of the signatures or keys"

/-- `Verify` verifies the license key and validates the claims present in
it (no caller-supplied options: the fixed options `WithKeySet`,
`UseDefaultKey(true)`, `WithValidate(true)` appended by the code are baked
into `jwtParseAndValidate`).  Returns the Go `(LicenseInfo, error)` pair. -/
def LicenseVerifier.Verify (lv : LicenseVerifier) (now : ℤ) (license : SignedToken) :
    LicenseInfo × Option String :=
  match jwtParseAndValidate lv.keySet now license with
  | Except.error e => (LicenseInfo.zero, some ("failed to verify license: " ++ e))
  | Except.ok token => toLicenseInfo token

/-- Modelled from the spec: the embedded development public key constant
(out-of-scope thin config); its PEM text parses via the PKIX path to some
fixed EC public key. -/
def devPemBlob : KeyBlob :=
  KeyBlob.pemBlock (InnerDER.pkix (ParsedKey.ec { id := 1 }))

/-- Modelled from the spec: the embedded production public key constant
(out-of-scope thin config); its PEM text parses via the PKIX path to some
fixed EC public key, distinct from the development one. -/
def prodPemBlob : KeyBlob :=
  KeyBlob.pemBlock (InnerDER.pkix (ParsedKey.ec { id := 2 }))

/-- `VerifyClusterLicense` - verifies if the given license string is valid
for the given cluster (deployment id).  `devMode` models the
`MINIO_CI_CD` environment switch.  Returns the Go `error` (none on
success). -/
def VerifyClusterLicense (devMode : Bool) (now : ℤ) (lic : SignedToken)
    (depID : String) : Option String :=
  let pemBytes := if devMode then devPemBlob else prodPemBlob
  match NewLicenseVerifier pemBytes with
  | Except.error e => some e
  | Except.ok lv =>
      match lv.Verify now lic with
      | (_, some e) => some e
      | (licInfo, none) =>
          if licInfo.DeploymentID ≠ depID then
            some "Invalid license - deployment ID doesn't match"
          else
            none

/-- Compact constructor for a verified-token view. -/
def mkToken (claims : RawClaims) (subject : String) (e : Option ℤ) : JWTToken :=
  { claims := claims, subject := subject, exp := e }

/-- Compact constructor for a signed token. -/
def mkSigned (alg : String) (claims : RawClaims) (subject : String)
    (e : Option ℤ) (n : Option ℤ) (sigKey : Nat) : SignedToken :=
  { alg := alg, claims := claims, subject := subject, exp := e, nbf := n, sigKey := sigKey }

/-- Compact constructor for a `LicenseInfo`. -/
def mkInfo (email org : String) (aid : ℤ) (did : String) (cap : ℤ)
    (planName : String) (e : ℤ) : LicenseInfo :=
  { Email := email, Organization := org, AccountID := aid, DeploymentID := did,
    StorageCapacity := cap, Plan := planName, ExpiresAt := e }

/-- A fully well-formed claim map with the five custom claims. -/
def stdClaims (a : ℚ) (o : String) (c : ℚ) (p d : String) : RawClaims :=
  [(accountID, JSONValue.num a), (organization, JSONValue.str o),
   (capacity, JSONValue.num c), (plan, JSONValue.str p),
   (deploymentID, JSONValue.str d)]

/-- The concrete claim map of the spec scenario. -/
def goodClaims : RawClaims :=
  stdClaims 42 "Acme" 100 "enterprise" "dep-123"

/-- Removing a claim from the map (used to state that a wrong-typed
deployment id behaves exactly like an absent one). -/
def eraseClaim (claims : RawClaims) (k : String) : RawClaims :=
  claims.filter (fun p => p.1 != k)

/-! ## Helper lemmas -/

theorem f64ToInt64_intCast (a : ℤ) : f64ToInt64 ((a : ℚ)) = a := by
  simp [f64ToInt64, Rat.num_intCast, Rat.den_intCast, Int.tdiv_one]

theorem lookupClaim_cons (hd : String × JSONValue) (tl : RawClaims) (k : String) :
    lookupClaim (hd :: tl) k = if hd.1 = k then some hd.2 else lookupClaim tl k := by
  by_cases h : hd.1 = k
  · have hb : (hd.1 == k) = true := beq_iff_eq.mpr h
    simp [lookupClaim, List.find?, hb, h]
  · have hb : (hd.1 == k) = false := beq_eq_false_iff_ne.mpr h
    simp [lookupClaim, List.find?, hb, h]

theorem eraseClaim_cons (hd : String × JSONValue) (tl : RawClaims) (k : String) :
    eraseClaim (hd :: tl) k =
      if hd.1 = k then eraseClaim tl k else hd :: eraseClaim tl k := by
  by_cases h : hd.1 = k <;> simp [eraseClaim, h]

theorem lookupClaim_erase_self (claims : RawClaims) (k : String) :
    lookupClaim (eraseClaim claims k) k = none := by
  induction claims with
  | nil => rfl
  | cons hd tl ih =>
      rw [eraseClaim_cons]
      by_cases h : hd.1 = k
      · rw [if_pos h]
        exact ih
      · rw [if_neg h, lookupClaim_cons, if_neg h]
        exact ih

theorem lookupClaim_erase_ne (claims : RawClaims) (k k' : String) (h : k' ≠ k) :
    lookupClaim (eraseClaim claims k) k' = lookupClaim claims k' := by
  induction claims with
  | nil => rfl
  | cons hd tl ih =>
      rw [eraseClaim_cons]
      by_cases hk : hd.1 = k
      · have hne : ¬ hd.1 = k' := fun hh => h (hh ▸ hk)
        rw [if_pos hk, lookupClaim_cons, if_neg hne]
        exact ih
      · rw [if_neg hk, lookupClaim_cons, lookupClaim_cons]
        by_cases hk' : hd.1 = k'
        · rw [if_pos hk', if_pos hk']
        · rw [if_neg hk', if_neg hk']
          exact ih

theorem toLicenseInfo_ok (t : JWTToken) (qa qc : ℚ) (o p : String)
    (ha : claimAsNum t.claims accountID = some qa) (h0 : ¬ qa < 0)
    (ho : claimAsStr t.claims organization = some o)
    (hc : claimAsNum t.claims capacity = some qc)
    (hp : claimAsStr t.claims plan = some p) :
    toLicenseInfo t =
      (mkInfo t.subject o (f64ToInt64 qa) ((claimAsStr t.claims deploymentID).getD "")
        (f64ToInt64 qc) p t.expiration, none) := by
  simp only [toLicenseInfo, ha, ho, hc, hp, h0, if_false, mkInfo]

theorem toLicenseInfo_aidErr (t : JWTToken)
    (hbad : claimAsNum t.claims accountID = none ∨
            ∃ q, claimAsNum t.claims accountID = some q ∧ q < 0) :
    toLicenseInfo t = (LicenseInfo.zero, some "Invalid accountId in claims") := by
  rcases hbad with h | ⟨q, hq, hlt⟩
  · simp only [toLicenseInfo, h]
  · simp only [toLicenseInfo, hq, hlt, if_true]

theorem toLicenseInfo_orgErr (t : JWTToken) (qa : ℚ)
    (ha : claimAsNum t.claims accountID = some qa) (h0 : ¬ qa < 0)
    (ho : claimAsStr t.claims organization = none) :
    toLicenseInfo t = (LicenseInfo.zero, some "Invalid organization in claims") := by
  simp only [toLicenseInfo, ha, h0, if_false, ho]

theorem toLicenseInfo_capErr (t : JWTToken) (qa : ℚ) (o : String)
    (ha : claimAsNum t.claims accountID = some qa) (h0 : ¬ qa < 0)
    (ho : claimAsStr t.claims organization = some o)
    (hc : claimAsNum t.claims capacity = none) :
    toLicenseInfo t = (LicenseInfo.zero, some "Invalid storage capacity in claims") := by
  simp only [toLicenseInfo, ha, h0, if_false, ho, hc]

theorem toLicenseInfo_planErr (t : JWTToken) (qa qc : ℚ) (o : String)
    (ha : claimAsNum t.claims accountID = some qa) (h0 : ¬ qa < 0)
    (ho : claimAsStr t.claims organization = some o)
    (hc : claimAsNum t.claims capacity = some qc)
    (hp : claimAsStr t.claims plan = none) :
    toLicenseInfo t = (LicenseInfo.zero, some "Invalid plan in claims") := by
  simp only [toLicenseInfo, ha, h0, if_false, ho, hc, hp]

theorem toLicenseInfo_err_zero (t : JWTToken) (e : String)
    (h : (toLicenseInfo t).2 = some e) : (toLicenseInfo t).1 = LicenseInfo.zero := by
  rcases ha : claimAsNum t.claims accountID with _ | qa
  · simp only [toLicenseInfo, ha]
  · by_cases h0 : qa < 0
    · simp only [toLicenseInfo, ha, h0, if_true]
    · rcases ho : claimAsStr t.claims organization with _ | o
      · simp only [toLicenseInfo, ha, h0, if_false, ho]
      · rcases hc : claimAsNum t.claims capacity with _ | qc
        · simp only [toLicenseInfo, ha, h0, if_false, ho, hc]
        · rcases hp : claimAsStr t.claims plan with _ | p
          · simp only [toLicenseInfo, ha, h0, if_false, ho, hc, hp]
          · exfalso
            simp only [toLicenseInfo, ha, h0, if_false, ho, hc, hp] at h
            exact Option.noConfusion h

theorem stdClaims_aid (a : ℚ) (o : String) (c : ℚ) (p d : String) :
    claimAsNum (stdClaims a o c p d) accountID = some a := rfl

theorem stdClaims_org (a : ℚ) (o : String) (c : ℚ) (p d : String) :
    claimAsStr (stdClaims a o c p d) organization = some o := rfl

theorem stdClaims_cap (a : ℚ) (o : String) (c : ℚ) (p d : String) :
    claimAsNum (stdClaims a o c p d) capacity = some c := rfl

theorem stdClaims_plan (a : ℚ) (o : String) (c : ℚ) (p d : String) :
    claimAsStr (stdClaims a o c p d) plan = some p := rfl

theorem stdClaims_did (a : ℚ) (o : String) (c : ℚ) (p d : String) :
    claimAsStr (stdClaims a o c p d) deploymentID = some d := rfl

theorem newLicenseVerifier_keySet (blob : KeyBlob) (lv : LicenseVerifier)
    (h : NewLicenseVerifier blob = Except.ok lv) :
    ∃ pb, parseECPublicKeyFromPEM blob = Except.ok pb ∧
      lv.keySet = [{ key := pb, alg := "ES384" }] := by
  rcases hp : parseECPublicKeyFromPEM blob with e | pb
  · simp only [NewLicenseVerifier, hp] at h
    exact Except.noConfusion h
  · simp only [NewLicenseVerifier, hp, Except.ok.injEq] at h
    exact ⟨pb, rfl, by rw [← h]⟩

theorem jwtParse_ok (keySet : List JWKey) (now : ℤ) (tok : SignedToken) (e : ℤ)
    (hsig : (keySet.any fun k => k.alg == tok.alg && k.key.id == tok.sigKey) = true)
    (hexp : tok.exp = some e) (hlt : now < e) (hnbf : tok.nbf = none) :
    jwtParseAndValidate keySet now tok =
      Except.ok { claims := tok.claims, subject := tok.subject, exp := tok.exp } := by
  have hnle : ¬ e ≤ now := not_le.mpr hlt
  simp only [jwtParseAndValidate, hsig, if_true, hexp, hnle, if_false, hnbf]

theorem jwtParse_expired (keySet : List JWKey) (now : ℤ) (tok : SignedToken) (e : ℤ)
    (hsig : (keySet.any fun k => k.alg == tok.alg && k.key.id == tok.sigKey) = true)
    (hexp : tok.exp = some e) (hle : e ≤ now) :
    jwtParseAndValidate keySet now tok = Except.error "exp not satisfied" := by
  simp only [jwtParseAndValidate, hsig, if_true, hexp, hle]

theorem jwtParse_badSig (keySet : List JWKey) (now : ℤ) (tok : SignedToken)
    (hsig : (keySet.any fun k => k.alg == tok.alg && k.key.id == tok.sigKey) = false) :
    jwtParseAndValidate keySet now tok =
      Except.error "could not verify message using any of the signatures or keys" := by
  simp only [jwtParseAndValidate, hsig, Bool.false_eq_true, if_false]

/-! ## Claims -/

/-- C1: a well-formed token signed with the private key matching the
verifier's key, with a future expiration, verifies successfully and the
returned `LicenseInfo` fields equal the claims encoded in the token (for
the claim values `{aid, org, cap, plan, did}`, the subject and the
expiration). -/
theorem c1_verify_valid_token (blob : KeyBlob) (lv : LicenseVerifier)
    (pb : ECPublicKey) (now e aid cap : ℤ) (org planName did subj : String)
    (hparse : parseECPublicKeyFromPEM blob = Except.ok pb)
    (hnew : NewLicenseVerifier blob = Except.ok lv)
    (haid : 0 ≤ aid) (hfresh : now < e) :
    lv.Verify now (mkSigned "ES384" (stdClaims (aid : ℚ) org (cap : ℚ) planName did)
        subj (some e) none pb.id) =
      (mkInfo subj org aid did cap planName e, none) := by
  obtain ⟨pb', hp', hks⟩ := newLicenseVerifier_keySet blob lv hnew
  rw [hparse] at hp'
  injection hp' with hpb
  subst hpb
  have hsig : (lv.keySet.any fun k => k.alg == "ES384" && k.key.id == pb.id) = true := by
    rw [hks]
    simp
  have hok := jwtParse_ok lv.keySet now (mkSigned "ES384"
      (stdClaims (aid : ℚ) org (cap : ℚ) planName did) subj (some e) none pb.id)
      e hsig rfl hfresh rfl
  have hv : lv.Verify now (mkSigned "ES384"
      (stdClaims (aid : ℚ) org (cap : ℚ) planName did) subj (some e) none pb.id) =
      toLicenseInfo (mkToken (stdClaims (aid : ℚ) org (cap : ℚ) planName did)
        subj (some e)) := by
    unfold LicenseVerifier.Verify
    rw [hok]
    rfl
  rw [hv, toLicenseInfo_ok (mkToken (stdClaims (aid : ℚ) org (cap : ℚ) planName did)
      subj (some e)) ((aid : ℤ) : ℚ) ((cap : ℤ) : ℚ) org planName
      (stdClaims_aid _ _ _ _ _) (not_lt.mpr (by exact_mod_cast haid))
      (stdClaims_org _ _ _ _ _) (stdClaims_cap _ _ _ _ _) (stdClaims_plan _ _ _ _ _)]
  simp [mkInfo, mkToken, JWTToken.expiration, f64ToInt64_intCast,
    stdClaims_did]

/-- C1 witness: the concrete scenario aid 42, org Acme, cap 100, plan
enterprise, did dep-123, expiration 1000, checked at time 0. -/
theorem c1_verify_valid_token_witness :
    (LicenseVerifier.mk [{ key := { id := 7 }, alg := "ES384" }]).Verify 0
        (mkSigned "ES384" (stdClaims ((42 : ℤ) : ℚ) "Acme" ((100 : ℤ) : ℚ)
          "enterprise" "dep-123") "u@x" (some 1000) none 7) =
      (mkInfo "u@x" "Acme" 42 "dep-123" 100 "enterprise" 1000, none) :=
  c1_verify_valid_token
    (KeyBlob.pemBlock (InnerDER.pkix (ParsedKey.ec { id := 7 })))
    (LicenseVerifier.mk [{ key := { id := 7 }, alg := "ES384" }])
    { id := 7 } 0 1000 42 100 "Acme" "enterprise" "dep-123" "u@x" rfl rfl
    (by decide) (by decide)

/-- C2: claims extraction fails with the invalid-accountId error whenever
the `aid` claim is absent, not a number (a string, boolean or null), or a
negative number, and no `LicenseInfo` is produced (the zero value is
returned); an `aid` of exactly 0 is accepted. -/
theorem c2_accountId_validation :
    (∀ t : JWTToken,
       (lookupClaim t.claims accountID = none ∨
        (∃ s, lookupClaim t.claims accountID = some (JSONValue.str s)) ∨
        (∃ b, lookupClaim t.claims accountID = some (JSONValue.boolean b)) ∨
        lookupClaim t.claims accountID = some JSONValue.null ∨
        ∃ q, lookupClaim t.claims accountID = some (JSONValue.num q) ∧ q < 0) →
       toLicenseInfo t = (LicenseInfo.zero, some "Invalid accountId in claims")) ∧
    toLicenseInfo (mkToken (stdClaims 0 "Acme" 100 "enterprise" "dep-123") "" (some 1000)) =
      (mkInfo "" "Acme" 0 "dep-123" 100 "enterprise" 1000, none) := by
  constructor
  · intro t hbad
    apply toLicenseInfo_aidErr
    rcases hbad with h | ⟨s, h⟩ | ⟨b, h⟩ | h | ⟨q, h, hq⟩
    · exact Or.inl (by simp [claimAsNum, h])
    · exact Or.inl (by simp [claimAsNum, h])
    · exact Or.inl (by simp [claimAsNum, h])
    · exact Or.inl (by simp [claimAsNum, h])
    · exact Or.inr ⟨q, by simp [claimAsNum, h], hq⟩
  · decide

/-- C2 witness: a string-typed `aid` claim is rejected with the
invalid-accountId error. -/
theorem c2_accountId_validation_witness :
    toLicenseInfo (mkToken [(accountID, JSONValue.str "42")] "" none) =
      (LicenseInfo.zero, some "Invalid accountId in claims") :=
  c2_accountId_validation.1 _ (Or.inr (Or.inl ⟨"42", rfl⟩))

/-- C3: a verified token whose deployment-id claim is absent still
extracts successfully, with `DeploymentID` the empty string; while an
absent (or wrong-typed) organization, storage-capacity or plan claim each
fails extraction with the error naming that field. -/
theorem c3_deploymentId_lenient :
    (∀ (t : JWTToken) (qa qc : ℚ) (o p : String),
       lookupClaim t.claims deploymentID = none →
       claimAsNum t.claims accountID = some qa → ¬ qa < 0 →
       claimAsStr t.claims organization = some o →
       claimAsNum t.claims capacity = some qc →
       claimAsStr t.claims plan = some p →
       toLicenseInfo t =
         (mkInfo t.subject o (f64ToInt64 qa) "" (f64ToInt64 qc) p t.expiration, none)) ∧
    (∀ (t : JWTToken) (qa : ℚ),
       claimAsNum t.claims accountID = some qa → ¬ qa < 0 →
       claimAsStr t.claims organization = none →
       toLicenseInfo t = (LicenseInfo.zero, some "Invalid organization in claims")) ∧
    (∀ (t : JWTToken) (qa : ℚ) (o : String),
       claimAsNum t.claims accountID = some qa → ¬ qa < 0 →
       claimAsStr t.claims organization = some o →
       claimAsNum t.claims capacity = none →
       toLicenseInfo t = (LicenseInfo.zero, some "Invalid storage capacity in claims")) ∧
    (∀ (t : JWTToken) (qa qc : ℚ) (o : String),
       claimAsNum t.claims accountID = some qa → ¬ qa < 0 →
       claimAsStr t.claims organization = some o →
       claimAsNum t.claims capacity = some qc →
       claimAsStr t.claims plan = none →
       toLicenseInfo t = (LicenseInfo.zero, some "Invalid plan in claims")) := by
  refine ⟨?_, ?_, ?_, ?_⟩
  · intro t qa qc o p hdid ha h0 ho hc hp
    rw [toLicenseInfo_ok t qa qc o p ha h0 ho hc hp]
    have hds : claimAsStr t.claims deploymentID = none := by
      simp [claimAsStr, hdid]
    rw [hds]
    rfl
  · intro t qa ha h0 ho
    exact toLicenseInfo_orgErr t qa ha h0 ho
  · intro t qa o ha h0 ho hc
    exact toLicenseInfo_capErr t qa o ha h0 ho hc
  · intro t qa qc o ha h0 ho hc hp
    exact toLicenseInfo_planErr t qa qc o ha h0 ho hc hp

/-- C3 witness: a token carrying aid, org, cap and plan but no
deployment-id claim extracts with `DeploymentID = ""`. -/
theorem c3_deploymentId_lenient_witness :
    toLicenseInfo (mkToken [(accountID, JSONValue.num 1),
        (organization, JSONValue.str "O"), (capacity, JSONValue.num 5),
        (plan, JSONValue.str "P")] "s" (some 9)) =
      (mkInfo "s" "O" 1 "" 5 "P" 9, none) := by
  have h := c3_deploymentId_lenient.1 (mkToken [(accountID, JSONValue.num 1),
      (organization, JSONValue.str "O"), (capacity, JSONValue.num 5),
      (plan, JSONValue.str "P")] "s" (some 9)) 1 5 "O" "P" rfl rfl (by decide)
      rfl rfl rfl
  exact h.trans (by decide)

/-- C4: a token whose expiration is strictly before the current time is
rejected by `Verify` with no caller-supplied options: verification always
fails, and when the signature check passes the error is the expiry
("exp not satisfied") error. -/
theorem c4_expired_rejected (lv : LicenseVerifier) (now : ℤ) (tok : SignedToken) (e : ℤ)
    (hexp : tok.exp = some e) (hlt : e < now) :
    (∃ msg, lv.Verify now tok = (LicenseInfo.zero, some msg)) ∧
    ((lv.keySet.any fun k => k.alg == tok.alg && k.key.id == tok.sigKey) = true →
      lv.Verify now tok =
        (LicenseInfo.zero, some "failed to verify license: exp not satisfied")) := by
  cases hsig : (lv.keySet.any fun k => k.alg == tok.alg && k.key.id == tok.sigKey) with
  | false =>
      have hb := jwtParse_badSig lv.keySet now tok hsig
      constructor
      · refine ⟨"failed to verify license: could not verify message using any of the signatures or keys", ?_⟩
        unfold LicenseVerifier.Verify
        rw [hb]
        rfl
      · intro h
        simp [hsig] at h
  | true =>
      have hb := jwtParse_expired lv.keySet now tok e hsig hexp (le_of_lt hlt)
      have hv : lv.Verify now tok =
          (LicenseInfo.zero, some "failed to verify license: exp not satisfied") := by
        unfold LicenseVerifier.Verify
        rw [hb]
        rfl
      exact ⟨⟨_, hv⟩, fun _ => hv⟩

/-- C4 witness: the scenario token, expired at check time 2000. -/
theorem c4_expired_rejected_witness :
    (LicenseVerifier.mk [{ key := { id := 3 }, alg := "ES384" }]).Verify 2000
        (mkSigned "ES384" goodClaims "" (some 1000) none 3) =
      (LicenseInfo.zero, some "failed to verify license: exp not satisfied") :=
  (c4_expired_rejected (LicenseVerifier.mk [{ key := { id := 3 }, alg := "ES384" }])
    2000 (mkSigned "ES384" goodClaims "" (some 1000) none 3) 1000 rfl
    (by decide)).2 (by decide)

theorem toLicenseInfo_congr (t t' : JWTToken)
    (h1 : claimAsNum t.claims accountID = claimAsNum t'.claims accountID)
    (h2 : claimAsStr t.claims deploymentID = claimAsStr t'.claims deploymentID)
    (h3 : claimAsStr t.claims organization = claimAsStr t'.claims organization)
    (h4 : claimAsNum t.claims capacity = claimAsNum t'.claims capacity)
    (h5 : claimAsStr t.claims plan = claimAsStr t'.claims plan)
    (h6 : t.subject = t'.subject) (h7 : t.expiration = t'.expiration) :
    toLicenseInfo t = toLicenseInfo t' := by
  simp only [toLicenseInfo, h1, h2, h3, h4, h5, h6, h7]

theorem toLicenseInfo_did_none (t : JWTToken)
    (h : claimAsStr t.claims deploymentID = none) :
    (toLicenseInfo t).1.DeploymentID = "" := by
  rcases ha : claimAsNum t.claims accountID with _ | qa
  · simp only [toLicenseInfo, ha]
    rfl
  · by_cases h0 : qa < 0
    · simp only [toLicenseInfo, ha, h0, if_true]
      rfl
    · rcases ho : claimAsStr t.claims organization with _ | o
      · simp only [toLicenseInfo, ha, h0, if_false, ho]
        rfl
      · rcases hc : claimAsNum t.claims capacity with _ | qc
        · simp only [toLicenseInfo, ha, h0, if_false, ho, hc]
          rfl
        · rcases hp : claimAsStr t.claims plan with _ | p
          · simp only [toLicenseInfo, ha, h0, if_false, ho, hc, hp]
            rfl
          · simp only [toLicenseInfo, ha, h0, if_false, ho, hc, hp, h]
            rfl

/-- C5: `VerifyClusterLicense` propagates verification errors unchanged,
and otherwise compares the extracted `DeploymentID` to the expected
deployment id by exact string equality: a differing id fails with the
deployment-mismatch error, an equal id returns success. -/
theorem c5_cluster_license_match :
    (∀ (devMode : Bool) (now : ℤ) (lic : SignedToken) (depID : String)
       (lv : LicenseVerifier) (err : String),
       NewLicenseVerifier (if devMode then devPemBlob else prodPemBlob) = Except.ok lv →
       (lv.Verify now lic).2 = some err →
       VerifyClusterLicense devMode now lic depID = some err) ∧
    (∀ (devMode : Bool) (now : ℤ) (lic : SignedToken) (depID : String)
       (lv : LicenseVerifier) (info : LicenseInfo),
       NewLicenseVerifier (if devMode then devPemBlob else prodPemBlob) = Except.ok lv →
       lv.Verify now lic = (info, none) →
       (info.DeploymentID ≠ depID →
          VerifyClusterLicense devMode now lic depID =
            some "Invalid license - deployment ID doesn't match") ∧
       (info.DeploymentID = depID →
          VerifyClusterLicense devMode now lic depID = none)) := by
  constructor
  · intro devMode now lic depID lv err hnew hv
    rcases hres : lv.Verify now lic with ⟨info, e⟩
    rw [hres] at hv
    simp only at hv
    subst hv
    simp only [VerifyClusterLicense, hnew, hres]
  · intro devMode now lic depID lv info hnew hv
    constructor
    · intro hne
      simp only [VerifyClusterLicense, hnew, hv]
      rw [if_pos hne]
    · intro heq
      simp only [VerifyClusterLicense, hnew, hv]
      rw [if_neg (not_not_intro heq)]

/-- C5 witness: the scenario token carries deployment id dep-123; checking
it against dep-999 fails with the deployment-mismatch error. -/
theorem c5_cluster_license_match_witness :
    VerifyClusterLicense true 0 (mkSigned "ES384" goodClaims "" (some 1000) none 1)
        "dep-999" = some "Invalid license - deployment ID doesn't match" :=
  (c5_cluster_license_match.2 true 0
    (mkSigned "ES384" goodClaims "" (some 1000) none 1) "dep-999"
    (LicenseVerifier.mk [{ key := { id := 1 }, alg := "ES384" }])
    (mkInfo "" "Acme" 42 "dep-123" 100 "enterprise" 1000)
    rfl (by decide)).1 (by decide)

/-- C6: the key loader fails with the PEM-framing error when no PEM block
can be located; otherwise it accepts an EC key obtained from either the
PKIX parse or the certificate fallback, rejects any non-EC key with the
key-type error, and when both parses fail it propagates the underlying
parse error. -/
theorem c6_key_loader_contract :
    parseECPublicKeyFromPEM KeyBlob.noPem =
        Except.error "key must be a PEM encoded PKCS1 or PKCS8 key" ∧
    (∀ pk, parseECPublicKeyFromPEM (KeyBlob.pemBlock (InnerDER.pkix (ParsedKey.ec pk))) =
        Except.ok pk) ∧
    (∀ pk, parseECPublicKeyFromPEM (KeyBlob.pemBlock (InnerDER.cert (ParsedKey.ec pk))) =
        Except.ok pk) ∧
    (∀ d, parseECPublicKeyFromPEM (KeyBlob.pemBlock (InnerDER.pkix (ParsedKey.nonEC d))) =
        Except.error "key is not a valid RSA public key") ∧
    (∀ d, parseECPublicKeyFromPEM (KeyBlob.pemBlock (InnerDER.cert (ParsedKey.nonEC d))) =
        Except.error "key is not a valid RSA public key") ∧
    (∀ e, parseECPublicKeyFromPEM (KeyBlob.pemBlock (InnerDER.garbage e)) =
        Except.error e) :=
  ⟨rfl, fun _ => rfl, fun _ => rfl, fun _ => rfl, fun _ => rfl, fun _ => rfl⟩

/-- C6 witness: a blob whose inner bytes defeat both parsers propagates
the certificate parser's error. -/
theorem c6_key_loader_contract_witness :
    parseECPublicKeyFromPEM (KeyBlob.pemBlock (InnerDER.garbage "asn1 error")) =
      Except.error "asn1 error" :=
  c6_key_loader_contract.2.2.2.2.2 "asn1 error"

/-- C7: whenever `NewLicenseVerifier` succeeds, the verifier's key set
contains exactly one key, and that key's algorithm tag is ES384 — for
every input blob, so the binding is unconditional, not inferred from the
key. -/
theorem c7_keyset_singleton_es384 (blob : KeyBlob) (lv : LicenseVerifier)
    (h : NewLicenseVerifier blob = Except.ok lv) :
    lv.keySet.length = 1 ∧ ∀ k ∈ lv.keySet, k.alg = "ES384" := by
  obtain ⟨pb, _, hks⟩ := newLicenseVerifier_keySet blob lv h
  rw [hks]
  refine ⟨rfl, ?_⟩
  intro k hk
  rcases List.mem_singleton.mp hk with rfl
  rfl

/-- C7 witness: the verifier built from the development key blob. -/
theorem c7_keyset_singleton_es384_witness :
    (LicenseVerifier.mk [{ key := { id := 1 }, alg := "ES384" }]).keySet.length = 1 ∧
    ∀ k ∈ (LicenseVerifier.mk [{ key := { id := 1 }, alg := "ES384" }]).keySet,
      k.alg = "ES384" :=
  c7_keyset_singleton_es384 devPemBlob
    (LicenseVerifier.mk [{ key := { id := 1 }, alg := "ES384" }]) rfl

/-- C8: when parsing or validation fails, `Verify` returns the zero
`LicenseInfo` together with an error wrapping the specific cause; claims
extraction runs only on a token that passed parsing and validation; and
every failing call returns the zero `LicenseInfo`, never a partially
populated one. -/
theorem c8_no_partial_licenseinfo (lv : LicenseVerifier) (now : ℤ) (tok : SignedToken) :
    (∀ e, jwtParseAndValidate lv.keySet now tok = Except.error e →
       lv.Verify now tok = (LicenseInfo.zero, some ("failed to verify license: " ++ e))) ∧
    (∀ vt, jwtParseAndValidate lv.keySet now tok = Except.ok vt →
       lv.Verify now tok = toLicenseInfo vt) ∧
    (∀ e, (lv.Verify now tok).2 = some e → (lv.Verify now tok).1 = LicenseInfo.zero) := by
  refine ⟨?_, ?_, ?_⟩
  · intro e he
    unfold LicenseVerifier.Verify
    rw [he]
  · intro vt hvt
    unfold LicenseVerifier.Verify
    rw [hvt]
  · intro e he
    rcases hp : jwtParseAndValidate lv.keySet now tok with msg | vt
    · unfold LicenseVerifier.Verify
      rw [hp]
    · have hv : lv.Verify now tok = toLicenseInfo vt := by
        unfold LicenseVerifier.Verify
        rw [hp]
      rw [hv] at he ⊢
      exact toLicenseInfo_err_zero vt e he

/-- C8 witness: with an empty key set every token fails signature
verification and `Verify` returns the zero `LicenseInfo` with the wrapped
cause. -/
theorem c8_no_partial_licenseinfo_witness :
    (LicenseVerifier.mk []).Verify 0 (mkSigned "ES384" goodClaims "" (some 1000) none 0) =
      (LicenseInfo.zero,
       some "failed to verify license: could not verify message using any of the signatures or keys") :=
  (c8_no_partial_licenseinfo (LicenseVerifier.mk []) 0
    (mkSigned "ES384" goodClaims "" (some 1000) none 0)).1
    "could not verify message using any of the signatures or keys" rfl

/-- C9: a verified token whose aid and cap claims are (possibly
fractional) non-negative-aid numbers extracts successfully, the int64
fields holding the truncation toward zero of the rational values
(truncated division of numerator by denominator). -/
theorem c9_fractional_truncation (t : JWTToken) (qa qc : ℚ) (o p : String)
    (ha : claimAsNum t.claims accountID = some qa) (h0 : ¬ qa < 0)
    (ho : claimAsStr t.claims organization = some o)
    (hc : claimAsNum t.claims capacity = some qc)
    (hp : claimAsStr t.claims plan = some p) :
    (toLicenseInfo t).2 = none ∧
    (toLicenseInfo t).1.AccountID = Int.tdiv qa.num qa.den ∧
    (toLicenseInfo t).1.StorageCapacity = Int.tdiv qc.num qc.den := by
  rw [toLicenseInfo_ok t qa qc o p ha h0 ho hc hp]
  exact ⟨rfl, rfl, rfl⟩

/-- C9 witness: aid = 42.9 truncates to 42 and cap = -5.7 truncates toward
zero to -5, with extraction succeeding. -/
theorem c9_fractional_truncation_witness :
    (toLicenseInfo (mkToken (stdClaims (429/10) "Acme" ((-57)/10) "enterprise" "d")
        "" (some 1))).2 = none ∧
    (toLicenseInfo (mkToken (stdClaims (429/10) "Acme" ((-57)/10) "enterprise" "d")
        "" (some 1))).1.AccountID = 42 ∧
    (toLicenseInfo (mkToken (stdClaims (429/10) "Acme" ((-57)/10) "enterprise" "d")
        "" (some 1))).1.StorageCapacity = -5 := by
  have h := c9_fractional_truncation
      (mkToken (stdClaims (429/10) "Acme" ((-57)/10) "enterprise" "d") "" (some 1))
      (429/10) ((-57)/10) "Acme" "enterprise" (stdClaims_aid _ _ _ _ _) (by norm_num)
      (stdClaims_org _ _ _ _ _) (stdClaims_cap _ _ _ _ _) (stdClaims_plan _ _ _ _ _)
  refine ⟨h.1, ?_, ?_⟩
  · rw [h.2.1]
    have e1 : ((429 : ℚ)/10).num = 429 := by norm_num
    have e2 : ((429 : ℚ)/10).den = 10 := by norm_num
    rw [e1, e2]
    decide
  · rw [h.2.2]
    have e1 : (((-57) : ℚ)/10).num = -57 := by norm_num
    have e2 : (((-57) : ℚ)/10).den = 10 := by norm_num
    rw [e1, e2]
    decide

/-- C10: a deployment-id claim that is present but not a string is treated
exactly like an absent claim: extraction behaves as if the claim were
removed, and the resulting `DeploymentID` is the empty string — it never
produces an invalid-claim error. -/
theorem c10_wrongtyped_deploymentId (t : JWTToken) (v : JSONValue)
    (hv : lookupClaim t.claims deploymentID = some v)
    (hns : ∀ s, v ≠ JSONValue.str s) :
    toLicenseInfo t =
      toLicenseInfo (mkToken (eraseClaim t.claims deploymentID) t.subject t.exp) ∧
    (toLicenseInfo t).1.DeploymentID = "" := by
  have habsent : claimAsStr t.claims deploymentID = none := by
    rcases v with s | q | b | _
    · exact absurd rfl (hns s)
    · simp [claimAsStr, hv]
    · simp [claimAsStr, hv]
    · simp [claimAsStr, hv]
  have herase : claimAsStr (eraseClaim t.claims deploymentID) deploymentID = none := by
    simp [claimAsStr, lookupClaim_erase_self]
  constructor
  · refine toLicenseInfo_congr t
      (mkToken (eraseClaim t.claims deploymentID) t.subject t.exp) ?_ ?_ ?_ ?_ ?_ rfl rfl
    · simp [claimAsNum,
        lookupClaim_erase_ne t.claims deploymentID accountID (by decide), mkToken]
    · rw [habsent]
      exact herase.symm
    · simp [claimAsStr,
        lookupClaim_erase_ne t.claims deploymentID organization (by decide), mkToken]
    · simp [claimAsNum,
        lookupClaim_erase_ne t.claims deploymentID capacity (by decide), mkToken]
    · simp [claimAsStr,
        lookupClaim_erase_ne t.claims deploymentID plan (by decide), mkToken]
  · exact toLicenseInfo_did_none t habsent

/-- C10 witness: a numeric deployment-id claim is ignored and the
remaining claims extract as if it were absent. -/
theorem c10_wrongtyped_deploymentId_witness :
    toLicenseInfo (mkToken [(deploymentID, JSONValue.num 5),
        (accountID, JSONValue.num 1), (organization, JSONValue.str "O"),
        (capacity, JSONValue.num 2), (plan, JSONValue.str "P")] "s" (some 9)) =
      toLicenseInfo (mkToken (eraseClaim [(deploymentID, JSONValue.num 5),
        (accountID, JSONValue.num 1), (organization, JSONValue.str "O"),
        (capacity, JSONValue.num 2), (plan, JSONValue.str "P")] deploymentID)
        "s" (some 9)) ∧
    (toLicenseInfo (mkToken [(deploymentID, JSONValue.num 5),
        (accountID, JSONValue.num 1), (organization, JSONValue.str "O"),
        (capacity, JSONValue.num 2), (plan, JSONValue.str "P")] "s" (some 9))
      ).1.DeploymentID = "" :=
  c10_wrongtyped_deploymentId
    (mkToken [(deploymentID, JSONValue.num 5), (accountID, JSONValue.num 1),
      (organization, JSONValue.str "O"), (capacity, JSONValue.num 2),
      (plan, JSONValue.str "P")] "s" (some 9))
    (JSONValue.num 5) rfl (fun _ h => JSONValue.noConfusion h)
